import Mathlib

/-! ## Verification of the hello-world Solana client

Shallow embedding of the serialization schema and of its
connect / fund / deploy-check / invoke workflow.

* Strings are modelled as lists of Unicode code points (`List Nat`); the borsh
  `String` wire format used by the `borsh` npm package under `GreetingSchema`
  is a little-endian `u32` byte-length prefix followed by the UTF-8 bytes.
* The network and the local filesystem are modelled as an oracle environment
  (`Env`); each client routine becomes a pure function of the environment that
  also returns the list of submitted faucet/transaction events, in order.
-/

namespace HelloWorld

/-- A Unicode scalar value: the range of code points of a well-formed JS string (below `0x110000`, excluding the surrogate block). -/
def ValidScalar (v : Nat) : Prop := v < 0x110000 ∧ (v < 0xD800 ∨ 0xE000 ≤ v)

instance : DecidablePred ValidScalar := fun v => by
  unfold ValidScalar; infer_instance

/-- UTF-8 encoding of one code point, as `Buffer.from(str, "utf8")` produces
for each scalar value of the string (1 to 4 bytes). -/
def utf8EncodeCp (v : Nat) : List Nat :=
  if v < 0x80 then [v]
  else if v < 0x800 then [0xC0 + v / 0x40, 0x80 + v % 0x40]
  else if v < 0x10000 then
    [0xE0 + v / 0x1000, 0x80 + v / 0x40 % 0x40, 0x80 + v % 0x40]
  else
    [0xF0 + v / 0x40000, 0x80 + v / 0x1000 % 0x40, 0x80 + v / 0x40 % 0x40,
      0x80 + v % 0x40]

/-- UTF-8 encoding of a whole string (a list of code points). -/
def utf8Encode (s : List Nat) : List Nat := s.flatMap utf8EncodeCp

/-- Continuation reader for a two-byte sequence led by `b0`: checks the one
continuation byte and yields the decoded scalar. -/
def utf8Cont1 (b0 : Nat) : List Nat → Option Nat
  | b1 :: _ =>
    if 0x80 ≤ b1 ∧ b1 < 0xC0 then some ((b0 - 0xC0) * 0x40 + (b1 - 0x80)) else none
  | [] => none

/-- Continuation reader for a three-byte sequence led by `b0`, with the WHATWG
second-byte bounds that exclude overlong forms (`b0 = 0xE0`) and surrogates
(`b0 = 0xED`). -/
def utf8Cont2 (b0 : Nat) : List Nat → Option Nat
  | b1 :: b2 :: _ =>
    if ((if b0 = 0xE0 then 0xA0 else 0x80) ≤ b1 ∧
          b1 < (if b0 = 0xED then 0xA0 else 0xC0)) ∧
        (0x80 ≤ b2 ∧ b2 < 0xC0) then
      some ((b0 - 0xE0) * 0x1000 + (b1 - 0x80) * 0x40 + (b2 - 0x80))
    else none
  | _ => none

/-- Continuation reader for a four-byte sequence led by `b0`, with the WHATWG
second-byte bounds that exclude overlong forms (`b0 = 0xF0`) and values above
`U+10FFFF` (`b0 = 0xF4`). -/
def utf8Cont3 (b0 : Nat) : List Nat → Option Nat
  | b1 :: b2 :: b3 :: _ =>
    if ((if b0 = 0xF0 then 0x90 else 0x80) ≤ b1 ∧
          b1 < (if b0 = 0xF4 then 0x90 else 0xC0)) ∧
        (0x80 ≤ b2 ∧ b2 < 0xC0) ∧ (0x80 ≤ b3 ∧ b3 < 0xC0) then
      some ((b0 - 0xF0) * 0x40000 + (b1 - 0x80) * 0x1000 +
        (b2 - 0x80) * 0x40 + (b3 - 0x80))
    else none
  | _ => none

/-- UTF-8 decoding of a byte list back to code points, with the WHATWG range
checks (no overlong forms, no surrogates, max `U+10FFFF`).  Modelled strictly:
an invalid sequence yields `none`, where the Node method `toString("utf8")` would
substitute replacement characters instead; the two agree on every valid
encoding, which is all the client ever decodes. -/
def utf8Decode : List Nat → Option (List Nat)
  | [] => some []
  | b0 :: rest =>
    if b0 < 0x80 then (utf8Decode rest).map (fun t => b0 :: t)
    else if b0 < 0xC2 then none
    else if b0 < 0xE0 then
      match utf8Cont1 b0 rest with
      | some v => (utf8Decode (rest.drop 1)).map (fun t => v :: t)
      | none => none
    else if b0 < 0xF0 then
      match utf8Cont2 b0 rest with
      | some v => (utf8Decode (rest.drop 2)).map (fun t => v :: t)
      | none => none
    else if b0 < 0xF5 then
      match utf8Cont3 b0 rest with
      | some v => (utf8Decode (rest.drop 3)).map (fun t => v :: t)
      | none => none
    else none
termination_by l => l.length
decreasing_by all_goals (simp only [List.length_drop, List.length_cons]; omega)

/-- Little-endian `u32` as written by the borsh `BinaryWriter`. -/
def u32le (n : Nat) : List Nat :=
  [n % 0x100, n / 0x100 % 0x100, n / 0x10000 % 0x100, n / 0x1000000 % 0x100]

/-- Little-endian `u32` as read back by the borsh `BinaryReader`. -/
def readU32le (b0 b1 b2 b3 : Nat) : Nat :=
  b0 + 0x100 * b1 + 0x10000 * b2 + 0x1000000 * b3

/-- The state of a greeting account (`class GreetingAccount`): a single `txt`
field, held as the code points of the string. -/
structure GreetingAccount where
  txt : List Nat
deriving DecidableEq

/-- Model of `borsh.serialize(GreetingSchema, x)` for the schema
`{kind: "struct", fields: [["txt", "String"]]}`: a `u32` little-endian byte
length followed by the UTF-8 bytes of `txt`. -/
def serializeGreeting (x : GreetingAccount) : List Nat :=
  u32le (utf8Encode x.txt).length ++ utf8Encode x.txt

/-- Model of `borsh.deserialize(GreetingSchema, GreetingAccount, buf)`: read the `u32`
length, take exactly that many bytes (failing if the buffer is short), UTF-8
decode them, and fail if any bytes remain unconsumed. -/
def deserializeGreeting (buf : List Nat) : Option GreetingAccount :=
  match buf with
  | b0 :: b1 :: b2 :: b3 :: rest =>
    if rest.length = readU32le b0 b1 b2 b3 then
      match utf8Decode rest with
      | some cps => some ⟨cps⟩
      | none => none
    else none
  | _ => none

/-- The `sampleGreeter` fixture: the representative value `"000000000000"` (twelve ASCII
zeros, code point 48) used to fix the account size. -/
def sampleGreeter : GreetingAccount := ⟨List.replicate 12 48⟩

/-- The account size `GREETING_SIZE = borsh.serialize(GreetingSchema, sampleGreeter).length`. -/
def GREETING_SIZE : Nat := (serializeGreeting sampleGreeter).length

/-! ## The client workflow over an oracle environment

Keypairs (`Account` objects) are identified by their public key, modelled as a
`Nat`.  Every network and filesystem interaction the client performs is an
oracle field of `Env`; the faucet requests and transactions a routine submits
are returned as an ordered `Event` list. -/

/-- A snapshot returned by `connection.getAccountInfo`: the `executable` flag
and the raw data bytes of the account. -/
structure AccountInfo where
  executable : Bool
  data : List Nat
deriving DecidableEq

/-- The fields of the Solana CLI config file that the client reads.  A missing
field is `none`; JS falsiness also treats an empty string as missing. -/
structure Config where
  json_rpc_url : Option String
  keypair_path : Option String

/-- Side effects the client can emit, in submission order.  Each transaction
event is submitted with `sendAndConfirmTransaction`, i.e. awaited until
confirmed; `confirm` records an explicit `confirmTransaction` await. -/
inductive Event where
  | airdrop (dest amount : Nat)
  | confirm
  | createAccountTx (fromPk basePk : Nat) (seed : String) (newPk lamports space pid : Nat)
  | helloTx (greeted pid payer : Nat) (data : List Nat)
deriving DecidableEq

/-- The errors `checkProgram` throws, by source message:
`readProgramKeypair` = "Failed to read program keypair at ... ",
`needsDeploy` = "Program needs to be deployed with \x60solana program deploy
dist/program/helloworld.so\x60", `needsBuildAndDeploy` = "Program needs to be
built and deployed", `notExecutable` = "Program is not executable". -/
inductive ClientError where
  | readProgramKeypair
  | needsDeploy
  | needsBuildAndDeploy
  | notExecutable
deriving DecidableEq

/-- Oracle environment: the local config/keypair files and the network RPC
responses, plus the fresh keypair `new Account()` would generate this run. -/
structure Env where
  /-- Parsed CLI config file; `none` when missing or unparseable. -/
  config : Option Config
  /-- `readAccountFromFile p`: the keypair stored at path `p`, `none` when the
  file is absent or corrupt. -/
  readKeypair : String → Option Nat
  /-- The public key of the keypair a `new Account()` call generates. -/
  freshAccount : Nat
  /-- `readAccountFromFile PROGRAM_KEYPAIR_PATH`; `none` when unreadable. -/
  programKeypair : Option Nat
  /-- `fs.existsSync(PROGRAM_SO_PATH)`. -/
  soFileExists : Bool
  /-- `connection.getAccountInfo`. -/
  accountInfo : Nat → Option AccountInfo
  /-- `connection.getMinimumBalanceForRentExemption`. -/
  minRentExemption : Nat → Nat
  /-- `feeCalculator.lamportsPerSignature` from `getRecentBlockhash`. -/
  lamportsPerSignature : Nat
  /-- `connection.getBalance`. -/
  balance : Nat → Nat

/-- Model of `getRpcUrl` from `utils.ts`: return the configured URL, or fall back to
`http://localhost:8899` with a warning when the config file is missing,
unparseable, or has no truthy `json_rpc_url`.  The `try/catch` swallows every
failure, so the function is total (no exception propagates); the returned flag
records whether the fallback warning was emitted. -/
def getRpcUrl (env : Env) : String × Bool :=
  match env.config with
  | some c =>
    match c.json_rpc_url with
    | some url => if url != "" then (url, false) else ("http://localhost:8899", true)
    | none => ("http://localhost:8899", true)
  | none => ("http://localhost:8899", true)

/-- Model of `newAccountWithLamports` from `utils.ts`: generate a fresh
keypair, request the given lamport amount from the faucet for it, and await
confirmation.  Returns the new account and the emitted events. -/
def newAccountWithLamports (env : Env) (lamports : Nat) : Nat × List Event :=
  (env.freshAccount, [Event.airdrop env.freshAccount lamports, Event.confirm])

/-- Model of `getPayer` from `utils.ts`: load the keypair at
`config.keypair_path`, falling back to a fresh `new Account()` with a warning
when the config is missing/unparseable or the path is not truthy (those
throws happen inside the `try` and are caught).  A failing keypair-file read,
however, rejects `getPayer` itself: the `try` block ends with
`return readAccountFromFile(config.keypair_path)` without `await`, so that
rejection bypasses the surrounding `catch` and is adopted by the returned
promise.  `.ok (pk, warned)` is a resolution, `.error ()` that rejection. -/
def getPayer (env : Env) : Except Unit (Nat × Bool) :=
  match env.config with
  | some c =>
    match c.keypair_path with
    | some p =>
      if p != "" then
        match env.readKeypair p with
        | some pk => .ok (pk, false)
        | none => .error ()
      else .ok (env.freshAccount, true)
    | none => .ok (env.freshAccount, true)
  | none => .ok (env.freshAccount, true)

/-- Result of `establishPayer`: the resulting module-level `payerAccount`, the
computed fee estimate, and the faucet events submitted. -/
structure EstablishPayerResult where
  payer : Nat
  fees : Nat
  events : List Event
deriving DecidableEq

/-- Model of `establishPayer` from `hello_world.ts`.  When `payerAccount` is
not yet set, compute `fees = minRent(GREETING_SIZE) + lamportsPerSignature *
100` and obtain the payer with `await getPayer()`; if that rejects (a failing
keypair-file read), the `catch` runs `newAccountWithLamports(connection,
fees)`, funding a fresh account with the full fee estimate before anything
else.  When `payerAccount` is already set, keep it with `fees = 0`.  In every
case the balance is then re-checked: when it is below `fees`, exactly the
shortfall is requested from the faucet and confirmation awaited. -/
def establishPayer (env : Env) (payerAccount : Option Nat) : EstablishPayerResult :=
  let fees := match payerAccount with
    | some _ => 0
    | none => env.minRentExemption GREETING_SIZE + env.lamportsPerSignature * 100
  let acquired : Nat × List Event := match payerAccount with
    | some pk => (pk, [])
    | none =>
      match getPayer env with
      | .ok (pk, _) => (pk, [])
      | .error _ => newAccountWithLamports env fees
  let lamports := env.balance acquired.1
  if lamports < fees then
    ⟨acquired.1, fees,
      acquired.2 ++ [Event.airdrop acquired.1 (fees - lamports), Event.confirm]⟩
  else ⟨acquired.1, fees, acquired.2⟩

/-- Result of `checkProgram`: either a thrown `ClientError` or the pair
`(programId, greetedPubkey)` it leaves in module state, together with the
transactions submitted along the way. -/
structure CheckProgramResult where
  result : Except ClientError (Nat × Nat)
  events : List Event

/-- Model of `checkProgram` from `hello_world.ts`, parameterized by `cws`, the external
pure SDK derivation `PublicKey.createWithSeed` — a pure derivation taking only the base
public key, the seed string, and the program id (no connection argument, no
network access).  Steps: load the program keypair (throwing on failure), fetch
the on-chain account record of the program (throwing when absent — with the message chosen
by whether the compiled `.so` exists — or when not executable), derive
`greetedPubkey = cws payer "hello" programId`, then create the greeting
account only when it does not already exist, sized and funded for
`GREETING_SIZE` bytes. -/
def checkProgram (env : Env) (cws : Nat → String → Nat → Nat) (payer : Nat) :
    CheckProgramResult :=
  match env.programKeypair with
  | none => ⟨.error .readProgramKeypair, []⟩
  | some pid =>
    match env.accountInfo pid with
    | none =>
      if env.soFileExists then ⟨.error .needsDeploy, []⟩
      else ⟨.error .needsBuildAndDeploy, []⟩
    | some info =>
      if !info.executable then ⟨.error .notExecutable, []⟩
      else
        match env.accountInfo (cws payer "hello" pid) with
        | some _ => ⟨.ok (pid, cws payer "hello" pid), []⟩
        | none =>
          ⟨.ok (pid, cws payer "hello" pid),
            [Event.createAccountTx payer payer "hello" (cws payer "hello" pid)
              (env.minRentExemption GREETING_SIZE) GREETING_SIZE pid,
              Event.confirm]⟩

/-- Model of `sayHello msg` from `hello_world.ts`: build a `GreetingAccount` with
`txt = msg` (no capacity check anywhere), borsh-serialize it as the
instruction data, and submit the one-instruction transaction signed by the
payer. -/
def sayHello (msg : List Nat) (payer pid greeted : Nat) : List Event :=
  [Event.helloTx greeted pid payer (serializeGreeting ⟨msg⟩)]

/-! ### Concrete fixtures used by witness theorems -/

/-- A concrete stand-in for the pure `PublicKey.createWithSeed` derivation,
used to instantiate witness environments. -/
def cwsW : Nat → String → Nat → Nat := fun base _ pid => 100 * base + pid

/-- A fixture environment: program keypair readable as id 7, every account
present and executable. -/
def envA : Env where
  config := none
  readKeypair := fun _ => none
  freshAccount := 5
  programKeypair := some 7
  soFileExists := true
  accountInfo := fun _ => some ⟨true, []⟩
  minRentExemption := fun n => 10 * n
  lamportsPerSignature := 3
  balance := fun _ => 0

/-- A fixture environment agreeing with `envA` on the program keypair but with
entirely different network responses: only the program account exists. -/
def envB : Env where
  config := some ⟨some "http://localhost:8899", none⟩
  readKeypair := fun _ => some 9
  freshAccount := 6
  programKeypair := some 7
  soFileExists := false
  accountInfo := fun a => if a = 7 then some ⟨true, [0, 0]⟩ else none
  minRentExemption := fun n => 999 * n
  lamportsPerSignature := 8
  balance := fun _ => 4
/-- A fixture environment where no account is on chain and the compiled
program binary exists locally. -/
def envC8 : Env where
  config := none
  readKeypair := fun _ => none
  freshAccount := 5
  programKeypair := some 7
  soFileExists := true
  accountInfo := fun _ => none
  minRentExemption := fun n => 10 * n
  lamportsPerSignature := 3
  balance := fun _ => 0

/-- A fixture environment whose config names a keypair file that cannot be
read, with an unfunded fresh account. -/
def envC9 : Env where
  config := some ⟨some "http://localhost:8899", some "/id.json"⟩
  readKeypair := fun _ => none
  freshAccount := 5
  programKeypair := none
  soFileExists := false
  accountInfo := fun _ => none
  minRentExemption := fun n => n
  lamportsPerSignature := 1
  balance := fun _ => 0

/-- A fixture environment whose config names a readable keypair file for a
payer holding a large balance. -/
def envC5 : Env where
  config := some ⟨some "http://localhost:8899", some "/id.json"⟩
  readKeypair := fun _ => some 11
  freshAccount := 5
  programKeypair := none
  soFileExists := false
  accountInfo := fun _ => none
  minRentExemption := fun n => n
  lamportsPerSignature := 1
  balance := fun _ => 1000000

/-- A fixture environment with no config file at all. -/
def envC7 : Env where
  config := none
  readKeypair := fun _ => none
  freshAccount := 5
  programKeypair := none
  soFileExists := false
  accountInfo := fun _ => none
  minRentExemption := fun n => n
  lamportsPerSignature := 1
  balance := fun _ => 0

/-- The sample value fixes the account size at 16 bytes: a 4-byte length
prefix plus 12 ASCII bytes. -/
lemma GREETING_SIZE_eq : GREETING_SIZE = 16 := by decide

/-! ## UTF-8 round-trip lemmas -/

/-- Decoding past the encoding of one valid scalar peels it off unchanged. -/
lemma utf8Decode_encodeCp_append (v : Nat) (hv : ValidScalar v) (rest : List Nat) :
    utf8Decode (utf8EncodeCp v ++ rest) = (utf8Decode rest).map (fun t => v :: t) := by
  obtain ⟨h1, h2⟩ := hv
  unfold utf8EncodeCp
  by_cases ha : v < 0x80
  · rw [if_pos ha, List.cons_append, List.nil_append, utf8Decode, if_pos ha]
  · by_cases hb : v < 0x800
    · rw [if_neg ha, if_pos hb]
      simp only [List.cons_append, List.nil_append]
      rw [utf8Decode, if_neg (by omega), if_neg (by omega), if_pos (by omega)]
      rw [utf8Cont1, if_pos (by omega :
        0x80 ≤ 0x80 + v % 0x40 ∧ 0x80 + v % 0x40 < 0xC0)]
      have hval : (0xC0 + v / 0x40 - 0xC0) * 0x40 + (0x80 + v % 0x40 - 0x80) = v := by
        omega
      simp only [List.drop_succ_cons, List.drop_zero, hval]
    · by_cases hc : v < 0x10000
      · rw [if_neg ha, if_neg hb, if_pos hc]
        simp only [List.cons_append, List.nil_append]
        rw [utf8Decode, if_neg (by omega), if_neg (by omega), if_neg (by omega),
          if_pos (by omega)]
        rw [utf8Cont2, if_pos (by
          refine ⟨⟨?_, ?_⟩, by omega, by omega⟩ <;> (split <;> omega))]
        have hval : (0xE0 + v / 0x1000 - 0xE0) * 0x1000 +
            (0x80 + v / 0x40 % 0x40 - 0x80) * 0x40 + (0x80 + v % 0x40 - 0x80) = v := by
          omega
        simp only [List.drop_succ_cons, List.drop_zero, hval]
      · rw [if_neg ha, if_neg hb, if_neg hc]
        simp only [List.cons_append, List.nil_append]
        rw [utf8Decode, if_neg (by omega), if_neg (by omega), if_neg (by omega),
          if_neg (by omega), if_pos (by omega)]
        rw [utf8Cont3, if_pos (by
          refine ⟨⟨?_, ?_⟩, ⟨by omega, by omega⟩, by omega, by omega⟩ <;> (split <;> omega))]
        have hval : (0xF0 + v / 0x40000 - 0xF0) * 0x40000 +
            (0x80 + v / 0x1000 % 0x40 - 0x80) * 0x1000 +
            (0x80 + v / 0x40 % 0x40 - 0x80) * 0x40 + (0x80 + v % 0x40 - 0x80) = v := by
          omega
        simp only [List.drop_succ_cons, List.drop_zero, hval]

/-- UTF-8 decoding inverts UTF-8 encoding on every list of valid scalars. -/
lemma utf8Decode_utf8Encode (s : List Nat) (hv : ∀ v ∈ s, ValidScalar v) :
    utf8Decode (utf8Encode s) = some s := by
  induction s with
  | nil => rw [utf8Encode, List.flatMap_nil, utf8Decode]
  | cons v t ih =>
    have hv0 : ValidScalar v := hv v (List.mem_cons_self v t)
    have ht : ∀ w ∈ t, ValidScalar w := fun w hw => hv w (List.mem_cons_of_mem v hw)
    rw [utf8Encode, List.flatMap_cons, utf8Decode_encodeCp_append v hv0,
      show t.flatMap utf8EncodeCp = utf8Encode t from rfl, ih ht]
    rfl

/-- ASCII code points each encode to a single byte, so the encoding of an
all-ASCII string has exactly the length of the string. -/
lemma utf8Encode_length_ascii (s : List Nat) (h : ∀ v ∈ s, v < 0x80) :
    (utf8Encode s).length = s.length := by
  induction s with
  | nil => rfl
  | cons v t ih =>
    have hv : v < 0x80 := h v (List.mem_cons_self v t)
    rw [utf8Encode, List.flatMap_cons, List.length_append,
      show t.flatMap utf8EncodeCp = utf8Encode t from rfl,
      ih (fun w hw => h w (List.mem_cons_of_mem v hw))]
    rw [utf8EncodeCp, if_pos hv]
    simp [Nat.add_comm]

/-- Projections of `establishPayer`: the payer and fee estimate it settles on,
before the balance re-check. -/
lemma establishPayer_payer_fees (env : Env) (p0 : Option Nat) :
    (establishPayer env p0).payer =
      (match p0 with
        | some pk => pk
        | none =>
          match getPayer env with
          | .ok (pk, _) => pk
          | .error _ => env.freshAccount) ∧
    (establishPayer env p0).fees =
      (match p0 with
        | some _ => 0
        | none => env.minRentExemption GREETING_SIZE + env.lamportsPerSignature * 100) := by
  cases p0 with
  | some pk => simp only [establishPayer]; split <;> exact ⟨rfl, rfl⟩
  | none =>
    cases hgp : getPayer env with
    | ok r =>
      obtain ⟨pk, w⟩ := r
      simp only [establishPayer, hgp]
      split <;> exact ⟨rfl, rfl⟩
    | error e =>
      simp only [establishPayer, hgp, newAccountWithLamports]
      split <;> exact ⟨rfl, rfl⟩

/-- An `ok` result of `checkProgram` is always the loaded program id paired
with the seed-derived greeting address. -/
lemma checkProgram_ok_eq (env : Env) (cws : Nat → String → Nat → Nat)
    (payer pid : Nat) (pr : Nat × Nat)
    (hpk : env.programKeypair = some pid)
    (hok : (checkProgram env cws payer).result = .ok pr) :
    pr = (pid, cws payer "hello" pid) := by
  unfold checkProgram at hok
  simp only [hpk] at hok
  cases hinfo : env.accountInfo pid with
  | none =>
    simp only [hinfo] at hok
    split at hok <;> simp at hok
  | some info =>
    simp only [hinfo] at hok
    by_cases hexec : info.executable
    · simp only [hexec, Bool.not_true, Bool.false_eq_true, if_false] at hok
      cases hg : env.accountInfo (cws payer "hello" pid) <;>
        (simp only [hg] at hok; exact (Except.ok.inj hok).symm)
    · simp only [Bool.not_eq_true] at hexec
      simp only [hexec, Bool.not_false, if_true] at hok
      simp at hok

/-! ## Claims -/

/-- C1. For every `GreetingAccount` whose `txt` is made of valid Unicode
scalars and fits the declared 12-byte capacity, borsh deserialization under
`GreetingSchema` inverts borsh serialization: `decode(encode(x)) = x`. -/
theorem greeting_roundtrip (x : GreetingAccount)
    (hv : ∀ v ∈ x.txt, ValidScalar v)
    (hcap : (utf8Encode x.txt).length ≤ 12) :
    deserializeGreeting (serializeGreeting x) = some x := by
  rcases x with ⟨txt⟩
  have hv : ∀ v ∈ txt, ValidScalar v := hv
  have hn : (utf8Encode txt).length ≤ 12 := hcap
  rw [serializeGreeting]
  rw [u32le,
    show (utf8Encode txt).length % 0x100 = (utf8Encode txt).length from by omega,
    show (utf8Encode txt).length / 0x100 % 0x100 = 0 from by omega,
    show (utf8Encode txt).length / 0x10000 % 0x100 = 0 from by omega,
    show (utf8Encode txt).length / 0x1000000 % 0x100 = 0 from by omega]
  rw [List.cons_append, List.cons_append, List.cons_append, List.cons_append,
    List.nil_append]
  rw [deserializeGreeting]
  rw [if_pos (show (utf8Encode txt).length =
    readU32le (utf8Encode txt).length 0 0 0 from by rw [readU32le]; omega)]
  rw [utf8Decode_utf8Encode txt hv]

/-- Witness for C1: the round-trip law holds at the concrete two-character
value `"Hi"`. -/
theorem greeting_roundtrip_witness :
    (∀ v ∈ ([72, 105] : List Nat), ValidScalar v) ∧
    (utf8Encode [72, 105]).length ≤ 12 ∧
    deserializeGreeting (serializeGreeting ⟨[72, 105]⟩) = some ⟨[72, 105]⟩ :=
  ⟨by decide, by decide, greeting_roundtrip ⟨[72, 105]⟩ (by decide) (by decide)⟩

/-- C2 counterexample: a 12-character string made of twelve copies of `é`
(code point `0xE9`, a valid scalar) serializes to 28 bytes, not
`GREETING_SIZE = 16`: the encoded byte count does depend on the content. -/
theorem twelve_chars_size_cex :
    (List.replicate 12 233).length = 12 ∧
    (∀ v ∈ List.replicate 12 233, ValidScalar v) ∧
    (serializeGreeting ⟨List.replicate 12 233⟩).length ≠ GREETING_SIZE := by
  decide

/-- C2 (amended). For every 12-character string of ASCII characters — exactly
those whose UTF-8 encoding is 12 bytes — the borsh-serialized byte length
equals `GREETING_SIZE`, the length computed from the sample `"000000000000"`,
regardless of which ASCII characters appear. -/
theorem twelve_ascii_chars_size_fixed (s : List Nat) (hlen : s.length = 12)
    (hascii : ∀ v ∈ s, v < 0x80) :
    (serializeGreeting ⟨s⟩).length = GREETING_SIZE := by
  rw [GREETING_SIZE_eq, serializeGreeting, List.length_append,
    utf8Encode_length_ascii s hascii, hlen]
  rfl

/-- Witness for C2 (amended): the serialized length of `"Hello1234567"` is
exactly `GREETING_SIZE`. -/
theorem twelve_ascii_chars_size_fixed_witness :
    ([72, 101, 108, 108, 111, 49, 50, 51, 52, 53, 54, 55] : List Nat).length = 12 ∧
    (∀ v ∈ ([72, 101, 108, 108, 111, 49, 50, 51, 52, 53, 54, 55] : List Nat), v < 0x80) ∧
    (serializeGreeting ⟨[72, 101, 108, 108, 111, 49, 50, 51, 52, 53, 54, 55]⟩).length =
      GREETING_SIZE :=
  ⟨by decide, by decide,
    twelve_ascii_chars_size_fixed [72, 101, 108, 108, 111, 49, 50, 51, 52, 53, 54, 55]
      (by decide) (by decide)⟩

/-- C3. The derived greeting address is a pure deterministic function of
(payer key, the fixed seed `"hello"`, program id): any two `checkProgram`
runs over environments that agree on the program keypair — but may answer
every network query differently — derive the same address, namely
`cws payer "hello" pid`, where `cws` is the network-free
`PublicKey.createWithSeed` derivation. -/
theorem derived_address_deterministic (cws : Nat → String → Nat → Nat)
    (env1 env2 : Env) (payer pid : Nat) (p1 p2 : Nat × Nat)
    (h1 : env1.programKeypair = some pid) (h2 : env2.programKeypair = some pid)
    (hok1 : (checkProgram env1 cws payer).result = .ok p1)
    (hok2 : (checkProgram env2 cws payer).result = .ok p2) :
    p1.2 = cws payer "hello" pid ∧ p2.2 = cws payer "hello" pid ∧ p1.2 = p2.2 := by
  have e1 := checkProgram_ok_eq env1 cws payer pid p1 h1 hok1
  have e2 := checkProgram_ok_eq env2 cws payer pid p2 h2 hok2
  rw [e1, e2]
  exact ⟨rfl, rfl, rfl⟩

/-- Witness for C3: `envA` and `envB` share program id 7 but disagree on every
network answer; both runs derive greeting address `cwsW 1 "hello" 7 = 107`. -/
theorem derived_address_deterministic_witness :
    ((7, 107) : Nat × Nat).2 = cwsW 1 "hello" 7 ∧
    ((7, 107) : Nat × Nat).2 = cwsW 1 "hello" 7 ∧
    ((7, 107) : Nat × Nat).2 = ((7, 107) : Nat × Nat).2 :=
  derived_address_deterministic cwsW envA envB 1 7 (7, 107) (7, 107) rfl rfl rfl rfl

/-- C4. When the derived greeting account already exists on chain,
`checkProgram` submits no account-creation transaction and returns without
error. -/
theorem checkProgram_idempotent (env : Env) (cws : Nat → String → Nat → Nat)
    (payer pid : Nat) (info g : AccountInfo)
    (hpk : env.programKeypair = some pid)
    (hinfo : env.accountInfo pid = some info)
    (hexec : info.executable = true)
    (hgreet : env.accountInfo (cws payer "hello" pid) = some g) :
    checkProgram env cws payer = ⟨.ok (pid, cws payer "hello" pid), []⟩ := by
  unfold checkProgram
  simp only [hpk, hinfo, hgreet, hexec, Bool.not_true, Bool.false_eq_true, if_false]

/-- Witness for C4: in `envA` the greeting account 107 already exists, so the
run is a no-op creation-wise. -/
theorem checkProgram_idempotent_witness :
    checkProgram envA cwsW 1 = ⟨.ok (7, 107), []⟩ :=
  checkProgram_idempotent envA cwsW 1 7 ⟨true, []⟩ ⟨true, []⟩ rfl rfl rfl rfl

/-- C5. In `establishPayer`, once the identity is obtained (already set, or
resolved by `getPayer` — the rejection path that first funds a fresh account
is excluded by hypothesis), the balance is re-checked against the fee
estimate: exactly the shortfall is requested and awaited when the balance is
short, and no faucet call is made otherwise. -/
theorem establishPayer_recheck (env : Env) (p0 : Option Nat)
    (h : p0 = none → (getPayer env).isOk = true) :
    (establishPayer env p0).events =
      if env.balance (establishPayer env p0).payer < (establishPayer env p0).fees then
        [Event.airdrop (establishPayer env p0).payer
          ((establishPayer env p0).fees - env.balance (establishPayer env p0).payer),
          Event.confirm]
      else [] := by
  obtain ⟨hp, hf⟩ := establishPayer_payer_fees env p0
  rw [hp, hf]
  cases p0 with
  | some pk => simp only [establishPayer]; split <;> simp_all
  | none =>
    cases hgp : getPayer env with
    | ok r =>
      obtain ⟨pk, w⟩ := r
      simp only [establishPayer, hgp]
      split <;> simp_all
    | error e =>
      have hh := h rfl
      rw [hgp] at hh
      exact Bool.noConfusion hh

/-- Witness for C5: in `envC5` the keypair loads and the balance exceeds the
fee estimate, so the run makes no faucet call at all. -/
theorem establishPayer_recheck_witness :
    (getPayer envC5).isOk = true ∧ (establishPayer envC5 none).events = [] :=
  ⟨rfl, establishPayer_recheck envC5 none (fun _ => rfl)⟩

/-- C6. The fee estimate of a fresh `establishPayer` run is the rent-exemption
minimum for `GREETING_SIZE` bytes plus the per-signature cost times the
safety multiplier 100. -/
theorem establishPayer_fee_estimate (env : Env) :
    (establishPayer env none).fees =
      env.minRentExemption GREETING_SIZE + env.lamportsPerSignature * 100 :=
  (establishPayer_payer_fees env none).2

/-- C7. When the CLI config file is missing or unparseable, or its RPC-URL
field is absent or empty, `getRpcUrl` propagates no exception: it warns and
returns the default endpoint `http://localhost:8899`. -/
theorem getRpcUrl_fallback (env : Env)
    (h : env.config = none ∨ ∃ c, env.config = some c ∧
      (c.json_rpc_url = none ∨ c.json_rpc_url = some "")) :
    getRpcUrl env = ("http://localhost:8899", true) := by
  rcases h with h | ⟨c, hc, hurl | hurl⟩ <;> simp [getRpcUrl, *]

/-- Witness for C7: with no config file present, `getRpcUrl` yields the
default endpoint and the warning flag. -/
theorem getRpcUrl_fallback_witness :
    getRpcUrl envC7 = ("http://localhost:8899", true) :=
  getRpcUrl_fallback envC7 (Or.inl rfl)

/-- C8. With the program keypair loaded, `checkProgram` fails before
submitting anything: with a "needs to be deployed" error when the program
address has no on-chain record, and with the "not executable" error when the
record exists but is not executable. -/
theorem checkProgram_deploy_errors (env : Env) (cws : Nat → String → Nat → Nat)
    (payer pid : Nat) (hpk : env.programKeypair = some pid) :
    (env.accountInfo pid = none →
      checkProgram env cws payer =
        ⟨.error (if env.soFileExists then .needsDeploy else .needsBuildAndDeploy), []⟩) ∧
    (∀ info, env.accountInfo pid = some info → info.executable = false →
      checkProgram env cws payer = ⟨.error .notExecutable, []⟩) := by
  constructor
  · intro hnone
    unfold checkProgram
    simp only [hpk, hnone]
    cases env.soFileExists <;> simp
  · intro info hinfo hexec
    unfold checkProgram
    simp only [hpk, hinfo, hexec, Bool.not_false, if_true]

/-- Witness for C8: in `envC8` the program account is absent while the
compiled binary exists, so the run fails with the deploy error and submits
nothing. -/
theorem checkProgram_deploy_errors_witness :
    checkProgram envC8 cwsW 1 = ⟨.error .needsDeploy, []⟩ :=
  (checkProgram_deploy_errors envC8 cwsW 1 7 rfl).1 rfl

/-- C9. When the configured keypair file cannot be read, `getPayer` rejects
(its un-awaited `return` escapes the `catch`), so `establishPayer` runs
`newAccountWithLamports`: a fresh identity is generated and the full fee
estimate is requested from the faucet and confirmed before anything else;
only then does the balance re-check proceed. -/
theorem establishPayer_fresh_fallback (env : Env) (c : Config) (p : String)
    (hc : env.config = some c) (hp : c.keypair_path = some p) (hne : p ≠ "")
    (hread : env.readKeypair p = none) :
    (establishPayer env none).payer = env.freshAccount ∧
    (establishPayer env none).events =
      Event.airdrop env.freshAccount
          (env.minRentExemption GREETING_SIZE + env.lamportsPerSignature * 100) ::
        Event.confirm ::
        (if env.balance env.freshAccount <
            env.minRentExemption GREETING_SIZE + env.lamportsPerSignature * 100 then
          [Event.airdrop env.freshAccount
            (env.minRentExemption GREETING_SIZE + env.lamportsPerSignature * 100 -
              env.balance env.freshAccount), Event.confirm]
        else []) := by
  have hgp : getPayer env = .error () := by
    simp [getPayer, hc, hp, hread, hne]
  constructor
  · rw [(establishPayer_payer_fees env none).1, hgp]
  · simp only [establishPayer, hgp, newAccountWithLamports]
    split <;> simp

/-- Witness for C9: in `envC9` the keypair path `/id.json` is unreadable and
the fresh account 5 is unfunded: the trace funds it with the full fee
estimate 116, confirms, and the re-check then airdrops the shortfall. -/
theorem establishPayer_fresh_fallback_witness :
    (establishPayer envC9 none).payer = envC9.freshAccount ∧
    (establishPayer envC9 none).events =
      Event.airdrop envC9.freshAccount
          (envC9.minRentExemption GREETING_SIZE + envC9.lamportsPerSignature * 100) ::
        Event.confirm ::
        (if envC9.balance envC9.freshAccount <
            envC9.minRentExemption GREETING_SIZE + envC9.lamportsPerSignature * 100 then
          [Event.airdrop envC9.freshAccount
            (envC9.minRentExemption GREETING_SIZE + envC9.lamportsPerSignature * 100 -
              envC9.balance envC9.freshAccount), Event.confirm]
        else []) :=
  establishPayer_fresh_fallback envC9 ⟨some "http://localhost:8899", some "/id.json"⟩
    "/id.json" rfl rfl (by decide) rfl

/-- C10. `sayHello` checks no capacity: every `msg` is serialized with
`txt = msg` and submitted as the instruction data, whose length is 4 plus the
UTF-8 byte length of `msg` — equal to the allocated `GREETING_SIZE` exactly
when `msg` encodes to 12 UTF-8 bytes. -/
theorem sayHello_unchecked (msg : List Nat) (payer pid greeted : Nat) :
    sayHello msg payer pid greeted =
      [Event.helloTx greeted pid payer (serializeGreeting ⟨msg⟩)] ∧
    (serializeGreeting ⟨msg⟩).length = 4 + (utf8Encode msg).length ∧
    ((serializeGreeting ⟨msg⟩).length = GREETING_SIZE ↔ (utf8Encode msg).length = 12) := by
  have hlen : (serializeGreeting ⟨msg⟩).length = 4 + (utf8Encode msg).length := by
    rw [serializeGreeting, List.length_append, u32le]
    rfl
  refine ⟨rfl, hlen, ?_⟩
  rw [hlen, GREETING_SIZE_eq]
  omega

end HelloWorld
